import Mathlib

/-!
Verification of the rust_vpn repository against its natural-language
specification.

The development shallowly embeds the relevant Rust code:

* `src/error.rs`            → `RustVpn.VpnError`
* `src/protocol/packet.rs`  → `RustVpn.PacketType`, `RustVpn.ControlType`,
                               `RustVpn.VpnPacket`
* `src/protocol/handler.rs` → `RustVpn.packPlain`, `RustVpn.unpackPlain`,
                               `RustVpn.ProtocolHandler.pack`,
                               `RustVpn.ProtocolHandler.unpack`
* `src/crypto/encryption.rs`→ `RustVpn.EncryptionManager.encrypt` /
                               `RustVpn.EncryptionManager.decrypt`
                               (the AES-256-GCM core is kept abstract as a
                               function parameter; only the nonce framing and
                               the length checks of the Rust code are modelled)
* `src/vpn/vpn_service.rs`  → `RustVpn.ServerState` and the handler functions
                               (`service_read_packet`, `handle_client_packet`,
                               `main_loop_step`, `parse_route_updates`, ...)
* `src/network/tcp_server.rs` → the session-table operations used by the above
* `src/vpn/vpn_client.rs`   → `RustVpn.ClientState`, `RustVpn.clientDisconnect`

Bytes are modelled as `Nat` (u8 values are < 256 by construction wherever a
theorem needs it).  A Rust `HashMap<String, V>` is modelled as
`String → Option V`.  A slice operation that can panic in Rust
(`&v[10..]` with `v.len() < 10`) is modelled by an explicit `panic`
constructor in the result type.
-/

namespace RustVpn

/-! ### Bytes and big-endian 32-bit words -/

/-- `u32::to_be_bytes`: big-endian byte decomposition of a 32-bit word. -/
def u32beBytes (n : Nat) : List Nat :=
  [n / 2 ^ 24 % 256, n / 2 ^ 16 % 256, n / 2 ^ 8 % 256, n % 256]

/-- `u32::from_be_bytes` on a 4-byte buffer (`copy_from_slice` zero-fills in
the model via `getD`; the Rust code only calls it on full 4-byte chunks). -/
def u32FromBeBytes (l : List Nat) : Nat :=
  l.getD 0 0 * 2 ^ 24 + l.getD 1 0 * 2 ^ 16 + l.getD 2 0 * 2 ^ 8 + l.getD 3 0

/-- A `[u8; 4]` IP address, as in `VpnPacket::source_ip`. -/
structure Ip where
  b0 : Nat
  b1 : Nat
  b2 : Nat
  b3 : Nat
deriving DecidableEq, Repr

/-- Serialize a `[u8; 4]` address (`extend_from_slice`). -/
def Ip.toBytes (ip : Ip) : List Nat := [ip.b0, ip.b1, ip.b2, ip.b3]

/-- Rebuild a `[u8; 4]` address from a 4-byte slice (`copy_from_slice`). -/
def ipOfBytes (l : List Nat) : Ip :=
  ⟨l.getD 0 0, l.getD 1 0, l.getD 2 0, l.getD 3 0⟩

/-! ### `src/error.rs` -/

/-- `VpnError` from `src/error.rs`.  The `Io` variant carries
`std::io::Error`; its payload is irrelevant to the claims so it is modelled
as a plain constructor (named `IoError` for lexical reasons). -/
inductive VpnError where
  | IoError : VpnError
  | Encryption : String → VpnError
  | Protocol : String → VpnError
  | Config : String → VpnError
  | Network : String → VpnError
  | KeyExchange : String → VpnError
  | GenericError : String → VpnError
  | ClientNotFound : VpnError
deriving DecidableEq, Repr

/-- `impl From<&str> for VpnError` (src/error.rs lines 15-19): a plain string
converts to `GenericError`, not to `Encryption` or `Protocol`. -/
def vpnErrorFromStr (s : String) : VpnError := VpnError.GenericError s

instance {ε α : Type} [DecidableEq ε] [DecidableEq α] : DecidableEq (Except ε α) :=
  fun a b =>
    match a, b with
    | .ok x, .ok y => if h : x = y then .isTrue (by rw [h]) else .isFalse (by simp [h])
    | .error x, .error y => if h : x = y then .isTrue (by rw [h]) else .isFalse (by simp [h])
    | .ok _, .error _ => .isFalse (by simp)
    | .error _, .ok _ => .isFalse (by simp)

/-! ### `src/protocol/packet.rs` -/

inductive PacketType where
  | Data : PacketType
  | Keepalive : PacketType
  | Control : PacketType
deriving DecidableEq, Repr

/-- The `#[repr(u8)]` discriminant of `PacketType`. -/
def PacketType.toByte : PacketType → Nat
  | .Data => 0
  | .Keepalive => 1
  | .Control => 2

/-- `impl TryFrom<u8> for PacketType`. -/
def PacketType.tryFrom (value : Nat) : Except VpnError PacketType :=
  match value with
  | 0 => .ok .Data
  | 1 => .ok .Keepalive
  | 2 => .ok .Control
  | _ => .error (VpnError.Protocol ("Invalid packet type: " ++ toString value))

inductive ControlType where
  | ConfigRequest : ControlType
  | ConfigResponse : ControlType
  | RouteUpdate : ControlType
  | Disconnect : ControlType
deriving DecidableEq, Repr

/-- The `#[repr(u8)]` discriminant of `ControlType`. -/
def ControlType.toByte : ControlType → Nat
  | .ConfigRequest => 0
  | .ConfigResponse => 1
  | .RouteUpdate => 2
  | .Disconnect => 3

/-- `impl TryFrom<u8> for ControlType`. -/
def ControlType.tryFrom (value : Nat) : Except VpnError ControlType :=
  match value with
  | 0 => .ok .ConfigRequest
  | 1 => .ok .ConfigResponse
  | 2 => .ok .RouteUpdate
  | 3 => .ok .Disconnect
  | _ => .error (VpnError.Protocol ("Invalid control type: " ++ toString value))

/-- `VpnPacket` from `src/protocol/packet.rs`. -/
structure VpnPacket where
  source_ip : Ip
  dest_ip : Ip
  packet_type : PacketType
  control_type : Option ControlType
  payload : List Nat
deriving DecidableEq, Repr

/-- `VpnPacket::new_data`. -/
def VpnPacket.new_data (source_ip dest_ip : Ip) (payload : List Nat) : VpnPacket :=
  ⟨source_ip, dest_ip, .Data, none, payload⟩

/-- `VpnPacket::new_keepalive`. -/
def VpnPacket.new_keepalive : VpnPacket :=
  ⟨⟨0, 0, 0, 0⟩, ⟨0, 0, 0, 0⟩, .Keepalive, none, []⟩

/-- `VpnPacket::new_control`: zero addresses, empty payload. -/
def VpnPacket.new_control (ct : ControlType) : VpnPacket :=
  ⟨⟨0, 0, 0, 0⟩, ⟨0, 0, 0, 0⟩, .Control, some ct, []⟩

/-- Well-typedness of a packet as used by the spec: a `Control` packet carries
a `control_type`. -/
def VpnPacket.wellTyped (p : VpnPacket) : Prop :=
  p.packet_type = PacketType.Control → p.control_type.isSome

instance (p : VpnPacket) : Decidable p.wellTyped := by
  unfold VpnPacket.wellTyped; infer_instance

/-! ### `src/protocol/handler.rs`: the plaintext codec

`ProtocolHandler::pack` serializes
`source_ip ‖ dest_ip ‖ packet_type ‖ control_type-or-0 ‖ payload`
and encrypts; `ProtocolHandler::unpack` decrypts and parses.  The plaintext
halves are modelled here; encryption is composed in below. -/

/-- The control-type byte written by `pack`:
`packet.control_type.unwrap_or(ControlType::ConfigRequest) as u8`
(`ConfigRequest` has discriminant 0, matching `to_bytes`). -/
def ctByte (c : Option ControlType) : Nat :=
  (c.getD ControlType.ConfigRequest).toByte

/-- The serialization half of `ProtocolHandler::pack` (handler.rs 17-24). -/
def packPlain (p : VpnPacket) : List Nat :=
  p.source_ip.toBytes ++ p.dest_ip.toBytes
    ++ [p.packet_type.toByte] ++ [ctByte p.control_type] ++ p.payload

/-- Result of `unpack`: the Rust code can return `Ok`, return `Err`, or
panic (the slice `&decrypted[10..]` with `decrypted.len() < 10`). -/
inductive UnpackResult where
  | panicked : UnpackResult
  | err : VpnError → UnpackResult
  | ok : VpnPacket → UnpackResult
deriving DecidableEq, Repr

/-- The part of `unpack` past the two length conditions: field extraction and
type-byte validation (handler.rs 35-61).  Indexes 0-9 are in bounds here. -/
def unpackCore (decrypted : List Nat) : UnpackResult :=
  let source_ip := ipOfBytes (decrypted.take 4)
  let dest_ip := ipOfBytes ((decrypted.drop 4).take 4)
  let payload := decrypted.drop 10
  match PacketType.tryFrom (decrypted.getD 8 0) with
  | .error _ => .err (VpnError.Protocol "Invalid packet type")
  | .ok packet_type =>
    match packet_type with
    | .Control =>
      match ControlType.tryFrom (decrypted.getD 9 0) with
      | .error _ => .err (VpnError.Protocol "Invalid control type")
      | .ok ct => .ok ⟨source_ip, dest_ip, .Control, some ct, payload⟩
    | pt => .ok ⟨source_ip, dest_ip, pt, none, payload⟩

/-- The parsing half of `ProtocolHandler::unpack` (handler.rs 31-62).
The source checks `decrypted.len() < 8` (returning
`GenericError("Invalid packet size")` through `From<&str>`), then slices
`&decrypted[10..]` — which *panics* when `8 ≤ len < 10` — before validating
the packet-type byte. -/
def unpackPlain (decrypted : List Nat) : UnpackResult :=
  if decrypted.length < 8 then .err (vpnErrorFromStr "Invalid packet size")
  else if decrypted.length < 10 then .panicked
  else unpackCore decrypted

/-! ### `src/crypto/encryption.rs`

The AES-256-GCM core is an external collaborator; it is abstracted as a
function pair `aeadEnc`/`aeadDec` from nonce and body.  The code's nonce
framing (`nonce ‖ ciphertext`) and the length-12 check are modelled
faithfully. -/

/-- `EncryptionManager::encrypt`: draw a nonce (passed in, because the source
takes it from `rand::thread_rng`), run the AEAD, return `nonce ‖ ciphertext`. -/
def EncryptionManager.encrypt (aeadEnc : List Nat → List Nat → List Nat)
    (nonce data : List Nat) : List Nat :=
  nonce ++ aeadEnc nonce data

/-- `EncryptionManager::decrypt` (encryption.rs 39-61): inputs shorter than
12 bytes fail with `"Data too short".into()` — which is
`GenericError("Data too short")` by `From<&str>` — otherwise split the nonce
and run the AEAD, mapping its failure to `Encryption`. -/
def EncryptionManager.decrypt (aeadDec : List Nat → List Nat → Except String (List Nat))
    (data : List Nat) : Except VpnError (List Nat) :=
  if data.length < 12 then .error (vpnErrorFromStr "Data too short")
  else
    match aeadDec (data.take 12) (data.drop 12) with
    | .ok plaintext => .ok plaintext
    | .error e => .error (VpnError.Encryption e)

/-- `ProtocolHandler::pack`: serialize then encrypt. -/
def ProtocolHandler.pack (aeadEnc : List Nat → List Nat → List Nat)
    (nonce : List Nat) (p : VpnPacket) : List Nat :=
  EncryptionManager.encrypt aeadEnc nonce (packPlain p)

/-- `ProtocolHandler::unpack`: decrypt then parse. -/
def ProtocolHandler.unpack (aeadDec : List Nat → List Nat → Except String (List Nat))
    (data : List Nat) : UnpackResult :=
  match EncryptionManager.decrypt aeadDec data with
  | .error e => .err e
  | .ok decrypted => unpackPlain decrypted

/-! ### `src/vpn/vpn_service.rs`: config and routes -/

/-- `VpnConfig` (vpn_service.rs 22-37).  `keepalive_interval` is stored as its
whole-second count, which is all the code ever reads of it. -/
structure VpnConfig where
  mtu : Nat
  keepalive_secs : Nat
  reconnect_attempts : Nat
deriving DecidableEq, Repr

/-- `VpnConfig::default` and the `or_insert_with` literal in `send_config`. -/
def VpnConfig.default : VpnConfig := ⟨1500, 30, 3⟩

/-- `VpnService::serialize_config`: three big-endian u32 words. -/
def serialize_config (c : VpnConfig) : List Nat :=
  u32beBytes c.mtu ++ u32beBytes c.keepalive_secs ++ u32beBytes c.reconnect_attempts

/-- `RouteEntry` (vpn_service.rs 39-45). -/
structure RouteEntry where
  target_network : Ip
  network_mask : Ip
  next_hop : Ip
  metric : Nat
deriving DecidableEq, Repr

/-- One 16-byte chunk of a route payload, read as in the body of the
`while` loop of `parse_route_updates` (vpn_service.rs 277-296). -/
def entryOfChunk (c : List Nat) : RouteEntry :=
  { target_network := ipOfBytes (c.take 4)
    network_mask := ipOfBytes ((c.drop 4).take 4)
    next_hop := ipOfBytes ((c.drop 8).take 4)
    metric := u32FromBeBytes (c.drop 12) }

/-- The `while offset < payload.len()` loop of `parse_route_updates`, one
16-byte chunk per iteration. -/
def parseRoutesLoop (l : List Nat) : List RouteEntry :=
  match l with
  | [] => []
  | a :: rest => entryOfChunk ((a :: rest).take 16) :: parseRoutesLoop ((a :: rest).drop 16)
termination_by l.length
decreasing_by simp; omega

/-- `VpnService::parse_route_updates` (vpn_service.rs 267-299): reject
payloads whose length is not a multiple of 16, else parse chunkwise. -/
def parse_route_updates (payload : List Nat) : Except VpnError (List RouteEntry) :=
  if payload.length % 16 ≠ 0 then
    .error (VpnError.Protocol "Invalid route update payload length")
  else .ok (parseRoutesLoop payload)

/-! ### Server state

`TcpServer.clients`, `VpnService.routes` and `VpnService.client_configs` are
`HashMap<String, _>` behind mutexes; each is modelled as a function
`String → Option _`.  A `ClientInfo` keeps its `last_seen` instant, modelled
as a `Nat` tick count. -/

/-- `ClientInfo` (tcp_server.rs 12-16); the stream handle itself is implicit
(frames read from it are inputs of the step functions below). -/
structure Session where
  last_seen : Nat
deriving DecidableEq, Repr

/-- `HashMap::insert` on the string-keyed map model. -/
def insertKey {α : Type} (m : String → Option α) (k : String) (v : α) :
    String → Option α :=
  fun x => if x = k then some v else m x

/-- `HashMap::remove` on the string-keyed map model. -/
def removeKey {α : Type} (m : String → Option α) (k : String) :
    String → Option α :=
  fun x => if x = k then none else m x

/-- The server's shared mutable state: session table (`TcpServer.clients`),
route table (`VpnService.routes`) and per-client config table
(`VpnService.client_configs`). -/
structure ServerState where
  sessions : String → Option Session
  routes : String → Option (List RouteEntry)
  configs : String → Option VpnConfig

/-- The state of a freshly started service: all three tables empty. -/
def initState : ServerState :=
  ⟨fun _ => none, fun _ => none, fun _ => none⟩

/-- What one non-blocking poll of a session's stream can yield, per the peek
policy of `TcpServer::service_read_packet`: either fewer than 4 bytes are
peekable (or the peek errors), or a complete length-prefixed frame whose
body is `frame`. -/
inductive ReadResult where
  | wouldBlock : ReadResult
  | data : List Nat → ReadResult

/-- `TcpServer::service_read_packet` (tcp_server.rs 121-154): missing client
is `ClientNotFound`; a short or failed peek yields `Ok(vec![])` consuming
nothing; otherwise the length prefix is checked against 65535 and a full
frame is read, refreshing `last_seen`. -/
def service_read_packet (st : ServerState) (cid : String) (r : ReadResult)
    (now : Nat) : Except VpnError (List Nat) × ServerState :=
  match st.sessions cid with
  | none => (.error VpnError.ClientNotFound, st)
  | some _ =>
    match r with
    | .wouldBlock => (.ok [], st)
    | .data frame =>
      if frame.length > 65535 then (.error (VpnError.Protocol "Packet too large"), st)
      else (.ok frame, { st with sessions := insertKey st.sessions cid ⟨now⟩ })

/-- `TcpServer::write_packet` (tcp_server.rs 156-166): fails with
`ClientNotFound` when the session is absent; stream writes themselves are
assumed to succeed. -/
def write_packet (st : ServerState) (cid : String) : Except VpnError Unit :=
  if (st.sessions cid).isSome then .ok () else .error VpnError.ClientNotFound

/-- Outcome of one `handle_client_packet` call: the Rust function either
returns a `Result` or panics (inside `unpack`). -/
inductive Outcome where
  | panicked : Outcome
  | returned : Except VpnError Unit → Outcome
deriving DecidableEq, Repr

/-- Result of one per-session step: outcome, post-state, and the packets
passed to `pack`/`write_packet` for that session, in order. -/
structure HandleResult where
  out : Outcome
  st : ServerState
  sent : List VpnPacket

/-- `VpnService::process_data_packet` (vpn_service.rs 148-158): echo with
source and destination swapped. -/
def process_data_packet (p : VpnPacket) : VpnPacket :=
  { source_ip := p.dest_ip
    dest_ip := p.source_ip
    packet_type := PacketType.Data
    control_type := p.control_type
    payload := p.payload }

/-- `VpnService::handle_data_packet` (vpn_service.rs 139-146). -/
def handle_data_packet (st : ServerState) (cid : String) (p : VpnPacket) :
    HandleResult :=
  let reply := process_data_packet p
  match write_packet st cid with
  | .ok _ => ⟨.returned (.ok ()), st, [reply]⟩
  | .error e => ⟨.returned (.error e), st, []⟩

/-- `VpnService::handle_keepalive` via `TcpServer::update_client_timestamp`
(vpn_service.rs 160-164, tcp_server.rs 178-186). -/
def handle_keepalive (st : ServerState) (cid : String) (now : Nat) :
    HandleResult :=
  match st.sessions cid with
  | some _ => ⟨.returned (.ok ()),
      { st with sessions := insertKey st.sessions cid ⟨now⟩ }, []⟩
  | none => ⟨.returned (.error VpnError.ClientNotFound), st, []⟩

/-- `VpnService::send_config` (vpn_service.rs 235-264): `or_insert` the
default config, serialize it, reply `Control/ConfigResponse`. -/
def send_config (st : ServerState) (cid : String) : HandleResult :=
  let config :=
    match st.configs cid with
    | some c => c
    | none => VpnConfig.default
  let st1 :=
    match st.configs cid with
    | some _ => st
    | none => { st with configs := insertKey st.configs cid VpnConfig.default }
  let pkt := { VpnPacket.new_control ControlType.ConfigResponse with
                 payload := serialize_config config }
  match write_packet st1 cid with
  | .ok _ => ⟨.returned (.ok ()), st1, [pkt]⟩
  | .error e => ⟨.returned (.error e), st1, []⟩

/-- `VpnService::update_routes` (vpn_service.rs 214-233): parse the payload,
replace this session's route list, acknowledge with payload `[0x01]`. -/
def update_routes (st : ServerState) (cid : String) (p : VpnPacket) :
    HandleResult :=
  match parse_route_updates p.payload with
  | .error e => ⟨.returned (.error e), st, []⟩
  | .ok entries =>
    let st1 := { st with routes := insertKey st.routes cid entries }
    let ack := { VpnPacket.new_control ControlType.RouteUpdate with payload := [1] }
    match write_packet st1 cid with
    | .ok _ => ⟨.returned (.ok ()), st1, [ack]⟩
    | .error e => ⟨.returned (.error e), st1, []⟩

/-- `VpnService::handle_disconnect` (vpn_service.rs 191-212): send the empty
`Control/Disconnect` acknowledgment, then remove the session and purge its
routes and config.  A failing write returns early (the `?` operator) without
removing anything. -/
def handle_disconnect (st : ServerState) (cid : String) : HandleResult :=
  let ack := VpnPacket.new_control ControlType.Disconnect
  match write_packet st cid with
  | .error e => ⟨.returned (.error e), st, []⟩
  | .ok _ =>
    ⟨.returned (.ok ()),
      { sessions := removeKey st.sessions cid
        routes := removeKey st.routes cid
        configs := removeKey st.configs cid }, [ack]⟩

/-- `VpnService::handle_client_packet` (vpn_service.rs 113-137): read one
frame, unpack it, dispatch on the packet type.  The wildcard arm of the
control match covers exactly `ConfigResponse`. -/
def handle_client_packet (aeadDec : List Nat → List Nat → Except String (List Nat))
    (st : ServerState) (cid : String) (read : ReadResult) (now : Nat) :
    HandleResult :=
  match service_read_packet st cid read now with
  | (.error e, st1) => ⟨.returned (.error e), st1, []⟩
  | (.ok encrypted, st1) =>
    match ProtocolHandler.unpack aeadDec encrypted with
    | .panicked => ⟨.panicked, st1, []⟩
    | .err e => ⟨.returned (.error e), st1, []⟩
    | .ok packet =>
      match packet.packet_type with
      | .Data => handle_data_packet st1 cid packet
      | .Keepalive => handle_keepalive st1 cid now
      | .Control =>
        match packet.control_type with
        | none => ⟨.returned (.error (VpnError.Protocol "Missing control type")), st1, []⟩
        | some .ConfigRequest => send_config st1 cid
        | some .RouteUpdate => update_routes st1 cid packet
        | some .Disconnect => handle_disconnect st1 cid
        | some .ConfigResponse =>
          ⟨.returned (.error (VpnError.Protocol "Unknown control type")), st1, []⟩

/-- `VpnService::is_fatal_error` (vpn_service.rs 187-189). -/
def is_fatal_error : VpnError → Bool
  | VpnError.ClientNotFound => true
  | VpnError.Protocol _ => true
  | _ => false

/-- One iteration of `VpnService::main_loop` for one client
(vpn_service.rs 92-111): run `handle_client_packet` and, on a
`ClientNotFound` or otherwise fatal error, remove the client from the
session table (and only from the session table). -/
def main_loop_step (aeadDec : List Nat → List Nat → Except String (List Nat))
    (st : ServerState) (cid : String) (read : ReadResult) (now : Nat) :
    HandleResult :=
  let r := handle_client_packet aeadDec st cid read now
  match r.out with
  | .returned (.error e) =>
    if is_fatal_error e then
      { r with st := { r.st with sessions := removeKey r.st.sessions cid } }
    else r
  | _ => r

/-- `TcpServer::get_stale_clients` + `VpnService::check_client_keepalive`
(tcp_server.rs 188-197, vpn_service.rs 179-185): drop every session whose
`last_seen` lies more than 90 seconds in the past.  Routes and configs are
not touched. -/
def reaper_tick (st : ServerState) (now : Nat) : ServerState :=
  { st with sessions := fun k =>
      match st.sessions k with
      | some s => if now - s.last_seen > 90 then none else some s
      | none => none }

/-- The accept loop registering a fresh session (tcp_server.rs 78-91). -/
def accept_client (st : ServerState) (cid : String) (now : Nat) : ServerState :=
  { st with sessions := insertKey st.sessions cid ⟨now⟩ }

/-- The operations whose interleavings generate the reachable server states:
accepting a connection, one worker iteration for one session (with that
session's poll result as input), and a reaper tick. -/
inductive Op where
  | accept : String → Nat → Op
  | tick : String → ReadResult → Nat → Op
  | reap : Nat → Op

/-- Apply one operation to the server state. -/
def applyOp (aeadDec : List Nat → List Nat → Except String (List Nat))
    (st : ServerState) : Op → ServerState
  | .accept cid now => accept_client st cid now
  | .tick cid read now => (main_loop_step aeadDec st cid read now).st
  | .reap now => reaper_tick st now

/-- Run a sequence of operations from a starting state. -/
def runOps (aeadDec : List Nat → List Nat → Except String (List Nat))
    (st : ServerState) (ops : List Op) : ServerState :=
  ops.foldl (applyOp aeadDec) st

/-! ### `src/vpn/vpn_client.rs`: the client session -/

/-- The client-side state relevant to `disconnect`: the `connected` flag, the
shared atomic `shutdown_flag`, and whether `client_thread` still holds the
heartbeat join handle (vpn_client.rs 13-20). -/
structure ClientState where
  connected : Bool
  shutdown_flag : Bool
  heartbeat_handle_present : Bool
deriving DecidableEq, Repr

/-- A client right after a successful handshake: connected, flag clear,
heartbeat thread spawned (vpn_client.rs 49-78, 105-124). -/
def connectedClient : ClientState := ⟨true, false, true⟩

/-- The loop guard of the heartbeat task spawned by `start_keepalive`
(vpn_client.rs 112): it keeps running while the shared flag is false (it
also stops when a write fails, which is outside this state model). -/
def heartbeat_loop_continues (st : ClientState) : Bool := !st.shutdown_flag

/-- `VpnClient::disconnect` (vpn_client.rs 126-137): when connected, send
`Control/Disconnect`, clear `connected`, take and join the heartbeat handle.
No statement in the function (or anywhere in vpn_client.rs) stores to
`shutdown_flag`. -/
def clientDisconnect (st : ClientState) : ClientState × List VpnPacket :=
  if st.connected then
    ({ st with connected := false, heartbeat_handle_present := false },
      [VpnPacket.new_control ControlType.Disconnect])
  else (st, [])

/-! ### Concrete instantiations used by witnesses and counterexamples

The AEAD core is abstract in the model, so concrete scenarios fix it to
simple total functions.  `List.replicate 12 0` serves as a well-formed
ciphertext (12 bytes of nonce, empty body). -/

/-- An AEAD whose decryption returns its ciphertext unchanged. -/
def trivAead : List Nat → List Nat → Except String (List Nat) := fun _ c => .ok c

/-- An AEAD decryption producing an 8-byte plaintext. -/
def dec8 : List Nat → List Nat → Except String (List Nat) :=
  fun _ _ => .ok (List.replicate 8 0)

/-- An AEAD decryption producing a 9-byte plaintext. -/
def dec9 : List Nat → List Nat → Except String (List Nat) :=
  fun _ _ => .ok (List.replicate 9 0)

/-- The 10-byte plaintext of a `Control/RouteUpdate` packet with zero
addresses and empty payload. -/
def routeUpdatePlain : List Nat := [0, 0, 0, 0, 0, 0, 0, 0, 2, 2]

/-- An AEAD decryption producing `routeUpdatePlain`. -/
def decRoute : List Nat → List Nat → Except String (List Nat) :=
  fun _ _ => .ok routeUpdatePlain

/-- The 11-byte plaintext of a `Data` packet from 1.2.3.4 to 5.6.7.8 with
payload `[99]`. -/
def dataPlain : List Nat := [1, 2, 3, 4, 5, 6, 7, 8, 0, 0, 99]

/-- An AEAD decryption producing `dataPlain`. -/
def decData : List Nat → List Nat → Except String (List Nat) :=
  fun _ _ => .ok dataPlain

/-- The 10-byte plaintext of a `Control/Disconnect` packet. -/
def discPlain : List Nat := [0, 0, 0, 0, 0, 0, 0, 0, 2, 3]

/-- An AEAD decryption producing `discPlain`. -/
def decDisc : List Nat → List Nat → Except String (List Nat) :=
  fun _ _ => .ok discPlain

/-- The 10-byte plaintext of a `Control/ConfigResponse` packet. -/
def configRespPlain : List Nat := [0, 0, 0, 0, 0, 0, 0, 0, 2, 1]

/-- An AEAD decryption producing `configRespPlain`. -/
def decConfigResp : List Nat → List Nat → Except String (List Nat) :=
  fun _ _ => .ok configRespPlain

/-- A server that has accepted one client `"c"` at time 0. -/
def stC : ServerState := accept_client initState "c" 0

/-- The operation sequence of the C1 counterexample: accept a client, let it
install a route set, then run a reaper tick after it went stale. -/
def c1Trace : List Op :=
  [Op.accept "c" 0, Op.tick "c" (ReadResult.data (List.replicate 12 0)) 0,
   Op.reap 1000]

/-- A well-typed non-`Control` packet carrying a `control_type`, for the
round-trip witness. -/
def pDemo : VpnPacket :=
  ⟨⟨1, 2, 3, 4⟩, ⟨5, 6, 7, 8⟩, PacketType.Data, some ControlType.ConfigResponse, [9, 10]⟩

/-- A 32-byte route payload with two distinct entries, for the C5 witness. -/
def routeDemoPayload : List Nat :=
  [10, 0, 0, 0, 255, 0, 0, 0, 192, 168, 1, 1, 0, 0, 0, 5,
   10, 1, 0, 0, 255, 255, 0, 0, 192, 168, 1, 2, 0, 0, 1, 0]

/-! ## Helper lemmas -/

/-- Parsing the serialization of a well-typed packet recovers the packet,
with the control type dropped on non-`Control` packets (`unpack` only reads
byte 9 when the packet-type byte says `Control`). -/
theorem unpackPlain_packPlain (p : VpnPacket) (hw : p.wellTyped) :
    unpackPlain (packPlain p) =
      .ok { p with control_type :=
              if p.packet_type = PacketType.Control then p.control_type else none } := by
  obtain ⟨⟨s0, s1, s2, s3⟩, ⟨d0, d1, d2, d3⟩, pt, ct, payload⟩ := p
  have h8 : ¬ (packPlain ⟨⟨s0, s1, s2, s3⟩, ⟨d0, d1, d2, d3⟩, pt, ct, payload⟩).length < 8 := by
    simp [packPlain, Ip.toBytes]
  have h10 : ¬ (packPlain ⟨⟨s0, s1, s2, s3⟩, ⟨d0, d1, d2, d3⟩, pt, ct, payload⟩).length < 10 := by
    simp [packPlain, Ip.toBytes]
  unfold unpackPlain
  rw [if_neg h8, if_neg h10]
  cases pt with
  | Data => rfl
  | Keepalive => rfl
  | Control =>
    cases ct with
    | none => simp [VpnPacket.wellTyped] at hw
    | some c => cases c <;> rfl

/-- The chunk loop yields one entry per 16 payload bytes. -/
theorem parseRoutesLoop_length (l : List Nat) (h : l.length % 16 = 0) :
    (parseRoutesLoop l).length = l.length / 16 := by
  induction l using parseRoutesLoop.induct with
  | case1 => rw [parseRoutesLoop]; rfl
  | case2 a rest ih =>
    rw [parseRoutesLoop]
    have hlen : ((a :: rest).drop 16).length = (a :: rest).length - 16 := by
      simp
    have h2 : ((a :: rest).drop 16).length % 16 = 0 := by
      rw [hlen]; omega
    simp only [List.length_cons, ih h2, hlen]
    simp only [List.length_cons] at h
    omega

/-- The i-th entry produced by the chunk loop comes from the i-th 16-byte
chunk of the payload. -/
theorem parseRoutesLoop_getD (l : List Nat) (i : Nat) (d : RouteEntry)
    (hi : i < (parseRoutesLoop l).length) :
    (parseRoutesLoop l).getD i d = entryOfChunk ((l.drop (16 * i)).take 16) := by
  induction i generalizing l with
  | zero =>
    cases l with
    | nil => simp [parseRoutesLoop] at hi
    | cons a rest => rw [parseRoutesLoop]; simp
  | succ i ih =>
    cases l with
    | nil => simp [parseRoutesLoop] at hi
    | cons a rest =>
      rw [parseRoutesLoop] at hi ⊢
      have hi2 : i < (parseRoutesLoop ((a :: rest).drop 16)).length := by
        simp only [List.length_cons] at hi
        omega
      rw [List.getD_cons_succ]
      rw [ih _ hi2]
      rw [List.drop_drop]
      have h16 : 16 + 16 * i = 16 * (i + 1) := by omega
      rw [h16]

/-- Reading a 16-byte chunk at offset `off` decomposes into the four field
reads at offsets `off`, `off+4`, `off+8`, `off+12`. -/
theorem entryOfChunk_fields (l : List Nat) (off : Nat) :
    entryOfChunk ((l.drop off).take 16) =
      { target_network := ipOfBytes ((l.drop off).take 4)
        network_mask := ipOfBytes ((l.drop (off + 4)).take 4)
        next_hop := ipOfBytes ((l.drop (off + 8)).take 4)
        metric := u32FromBeBytes ((l.drop (off + 12)).take 4) } := by
  unfold entryOfChunk
  have t1 : ((l.drop off).take 16).take 4 = (l.drop off).take 4 := by
    rw [List.take_take]; norm_num
  have t2 : (((l.drop off).take 16).drop 4).take 4 = (l.drop (off + 4)).take 4 := by
    rw [List.drop_take, List.take_take, List.drop_drop]
    norm_num
  have t3 : (((l.drop off).take 16).drop 8).take 4 = (l.drop (off + 8)).take 4 := by
    rw [List.drop_take, List.take_take, List.drop_drop]
    norm_num
  have t4 : ((l.drop off).take 16).drop 12 = (l.drop (off + 12)).take 4 := by
    rw [List.drop_take, List.drop_drop]
  rw [t1, t2, t3, t4]

/-- Exhaustive characterization of how one main-loop iteration can touch the
route and config tables at a key `k`: either it leaves both entries at `k`
unchanged, or `k` is the polled client and the step is a route install, a
config install, or a disconnect purge; in the two install cases the session
is present afterwards, and in the purge case all three tables drop the key
together. -/
theorem main_loop_step_table_cases
    (aeadDec : List Nat → List Nat → Except String (List Nat))
    (st : ServerState) (cid : String) (read : ReadResult) (now : Nat) (k : String) :
    ((main_loop_step aeadDec st cid read now).st.routes k = st.routes k ∧
      (main_loop_step aeadDec st cid read now).st.configs k = st.configs k) ∨
    (k = cid ∧ ((main_loop_step aeadDec st cid read now).st.routes k).isSome ∧
      ((main_loop_step aeadDec st cid read now).st.sessions k).isSome ∧
      (main_loop_step aeadDec st cid read now).st.configs k = st.configs k) ∨
    (k = cid ∧ ((main_loop_step aeadDec st cid read now).st.configs k).isSome ∧
      ((main_loop_step aeadDec st cid read now).st.sessions k).isSome ∧
      (main_loop_step aeadDec st cid read now).st.routes k = st.routes k) ∨
    (k = cid ∧ (main_loop_step aeadDec st cid read now).st.routes k = none ∧
      (main_loop_step aeadDec st cid read now).st.configs k = none ∧
      (main_loop_step aeadDec st cid read now).st.sessions k = none) := by
  unfold main_loop_step handle_client_packet service_read_packet
  cases hsc : st.sessions cid with
  | none => simp [is_fatal_error]
  | some s =>
    cases read with
    | wouldBlock =>
      simp [ProtocolHandler.unpack, EncryptionManager.decrypt, vpnErrorFromStr,
            is_fatal_error]
    | data frame =>
      by_cases hbig : frame.length > 65535
      · simp [hbig, is_fatal_error]
      · simp only [hbig, if_false]
        cases hu : ProtocolHandler.unpack aeadDec frame with
        | panicked => simp [hu]
        | err e => cases e <;> simp [hu, is_fatal_error]
        | ok packet =>
          cases hpt : packet.packet_type with
          | Data =>
            simp [hu, hpt, handle_data_packet, write_packet, insertKey,
                  is_fatal_error]
          | Keepalive =>
            simp [hu, hpt, handle_keepalive, insertKey, is_fatal_error]
          | Control =>
            cases hct : packet.control_type with
            | none => simp [hu, hpt, hct, is_fatal_error, removeKey]
            | some c =>
              cases c with
              | ConfigRequest =>
                by_cases hcfg : (st.configs cid).isSome
                · obtain ⟨cv, hcv⟩ := Option.isSome_iff_exists.mp hcfg
                  by_cases hk : k = cid <;>
                    simp [hu, hpt, hct, send_config, write_packet, insertKey,
                          hcv, hk, is_fatal_error]
                · have hcv : st.configs cid = none := by
                    cases hvv : st.configs cid
                    · rfl
                    · rw [hvv] at hcfg; simp at hcfg
                  by_cases hk : k = cid <;>
                    simp [hu, hpt, hct, send_config, write_packet, insertKey,
                          hcv, hk, is_fatal_error]
              | ConfigResponse => simp [hu, hpt, hct, is_fatal_error, removeKey]
              | RouteUpdate =>
                cases hpr : parse_route_updates packet.payload with
                | error e =>
                  cases e <;>
                    simp [hu, hpt, hct, update_routes, hpr, is_fatal_error,
                          removeKey]
                | ok entries =>
                  by_cases hk : k = cid <;>
                    simp [hu, hpt, hct, update_routes, hpr, write_packet,
                          insertKey, hk, is_fatal_error]
              | Disconnect =>
                by_cases hk : k = cid <;>
                  simp [hu, hpt, hct, handle_disconnect, write_packet, insertKey,
                        removeKey, hk, is_fatal_error]

/-! ## Claim theorems -/

/-- C1, counterexample: the reachable-state invariant fails.  After accepting
client `"c"`, processing its `RouteUpdate`, and running a reaper tick once
the client is stale, the route table still holds key `"c"` while the session
table does not: `check_client_keepalive` removes sessions without purging
routes or configs. -/
theorem c1_counterexample :
    ((runOps decRoute initState c1Trace).routes "c").isSome = true ∧
    (runOps decRoute initState c1Trace).sessions "c" = none := by
  decide

/-- C1 (amended): the table invariant holds at the moment of mutation, not
for arbitrary operation sequences.  Whenever one main-loop iteration changes
the route or config entry of a key, afterwards either that key's session is
present (route/config install) or all three tables lack the key (disconnect
purge).  Sessions removed by the reaper or by the fatal-error path keep their
route and config entries behind, which is what `c1_counterexample` exhibits. -/
theorem c1_mutation_moment_invariant
    (aeadDec : List Nat → List Nat → Except String (List Nat))
    (st : ServerState) (cid : String) (read : ReadResult) (now : Nat) (k : String)
    (hchange :
      (main_loop_step aeadDec st cid read now).st.routes k ≠ st.routes k ∨
      (main_loop_step aeadDec st cid read now).st.configs k ≠ st.configs k) :
    (((main_loop_step aeadDec st cid read now).st.routes k).isSome ∨
        ((main_loop_step aeadDec st cid read now).st.configs k).isSome →
      ((main_loop_step aeadDec st cid read now).st.sessions k).isSome) ∧
    ((main_loop_step aeadDec st cid read now).st.sessions k = none →
      (main_loop_step aeadDec st cid read now).st.routes k = none ∧
      (main_loop_step aeadDec st cid read now).st.configs k = none) := by
  rcases main_loop_step_table_cases aeadDec st cid read now k with
    ⟨h1, h2⟩ | ⟨_, hr, hsess, _⟩ | ⟨_, hc, hsess, _⟩ | ⟨_, hrn, hcn, hsn⟩
  · rw [h1, h2] at hchange
    simp at hchange
  · exact ⟨fun _ => hsess, fun hn => by rw [hn] at hsess; simp at hsess⟩
  · exact ⟨fun _ => hsess, fun hn => by rw [hn] at hsess; simp at hsess⟩
  · refine ⟨fun hsome => ?_, fun _ => ⟨hrn, hcn⟩⟩
    rw [hrn, hcn] at hsome
    simp at hsome

/-- C1, witness for the amended theorem: the `RouteUpdate` tick on the
one-client server changes the route table at `"c"`, and afterwards the
session is present. -/
theorem c1_mutation_moment_invariant_witness :
    ((main_loop_step decRoute stC "c" (ReadResult.data (List.replicate 12 0)) 0).st.routes "c"
        ≠ stC.routes "c" ∨
      (main_loop_step decRoute stC "c" (ReadResult.data (List.replicate 12 0)) 0).st.configs "c"
        ≠ stC.configs "c") ∧
    ((((main_loop_step decRoute stC "c" (ReadResult.data (List.replicate 12 0)) 0).st.routes "c").isSome ∨
        ((main_loop_step decRoute stC "c" (ReadResult.data (List.replicate 12 0)) 0).st.configs "c").isSome →
      ((main_loop_step decRoute stC "c" (ReadResult.data (List.replicate 12 0)) 0).st.sessions "c").isSome) ∧
    ((main_loop_step decRoute stC "c" (ReadResult.data (List.replicate 12 0)) 0).st.sessions "c" = none →
      (main_loop_step decRoute stC "c" (ReadResult.data (List.replicate 12 0)) 0).st.routes "c" = none ∧
      (main_loop_step decRoute stC "c" (ReadResult.data (List.replicate 12 0)) 0).st.configs "c" = none)) :=
  ⟨Or.inl (by decide),
    c1_mutation_moment_invariant decRoute stC "c"
      (ReadResult.data (List.replicate 12 0)) 0 "c" (Or.inl (by decide))⟩

/-- C2: the claim is right and the code is wrong.  `unpack` only checks
`decrypted.len() < 8` and then slices `&decrypted[10..]`, so a ciphertext
decrypting to an 8- or 9-byte plaintext makes the Rust code panic (slice
start index out of range) rather than return a `Protocol` error, and
plaintexts of length 0-7 yield `GenericError("Invalid packet size")`, also
not `Protocol`. -/
theorem c2_unpack_short_plaintext_behavior :
    ProtocolHandler.unpack dec8 (List.replicate 12 0) = .panicked ∧
    ProtocolHandler.unpack dec9 (List.replicate 12 0) = .panicked ∧
    unpackPlain [] = .err (VpnError.GenericError "Invalid packet size") ∧
    unpackPlain (List.replicate 7 0) = .err (VpnError.GenericError "Invalid packet size") := by
  decide

/-- C3, counterexample: on a would-block poll the claim says "no error is
raised for that session", but the worker feeds the empty buffer returned by
`service_read_packet` to `unpack`, which raises
`GenericError("Data too short")`. -/
theorem c3_counterexample :
    (handle_client_packet decRoute stC "c" ReadResult.wouldBlock 5).out
      = .returned (.error (VpnError.GenericError "Data too short")) := by
  decide

/-- C3 (amended): on a would-block poll for a live session, the iteration
*does* raise an error — the non-fatal `GenericError("Data too short")` from
decrypting the empty read — but the session is not removed, nothing else in
the state changes, nothing is written, and the worker moves on. -/
theorem c3_no_frame_tick_nonfatal
    (aeadDec : List Nat → List Nat → Except String (List Nat))
    (st : ServerState) (cid : String) (now : Nat)
    (h : (st.sessions cid).isSome) :
    (main_loop_step aeadDec st cid .wouldBlock now).out
        = .returned (.error (VpnError.GenericError "Data too short")) ∧
    (main_loop_step aeadDec st cid .wouldBlock now).st = st ∧
    (main_loop_step aeadDec st cid .wouldBlock now).sent = [] := by
  obtain ⟨s, hs⟩ := Option.isSome_iff_exists.mp h
  simp [main_loop_step, handle_client_packet, service_read_packet, hs,
        ProtocolHandler.unpack, EncryptionManager.decrypt, vpnErrorFromStr,
        is_fatal_error]

/-- C3, witness: a would-block tick for the one accepted client. -/
theorem c3_no_frame_tick_nonfatal_witness :
    (stC.sessions "c").isSome = true ∧
    ((main_loop_step decRoute stC "c" .wouldBlock 5).out
        = .returned (.error (VpnError.GenericError "Data too short")) ∧
    (main_loop_step decRoute stC "c" .wouldBlock 5).st = stC ∧
    (main_loop_step decRoute stC "c" .wouldBlock 5).sent = []) :=
  ⟨by decide, c3_no_frame_tick_nonfatal decRoute stC "c" 5 (by decide)⟩

/-- C4, counterexample: a short `decrypt` input does not produce an
`Encryption`-kind error carrying "Data too short" — the `From<&str>`
conversion yields `GenericError`. -/
theorem c4_counterexample :
    EncryptionManager.decrypt trivAead []
      ≠ .error (VpnError.Encryption "Data too short") := by
  decide

/-- C4 (amended): for every input of length 0 through 11 bytes, `decrypt`
fails with `GenericError("Data too short")` (the error kind produced by
`"Data too short".into()` via `impl From<&str> for VpnError`). -/
theorem c4_decrypt_short_generic_error
    (aeadDec : List Nat → List Nat → Except String (List Nat))
    (data : List Nat) (h : data.length ≤ 11) :
    EncryptionManager.decrypt aeadDec data
      = .error (VpnError.GenericError "Data too short") := by
  unfold EncryptionManager.decrypt
  rw [if_pos (by omega)]
  rfl

/-- C4, witness: the empty input and a 5-byte input. -/
theorem c4_decrypt_short_generic_error_witness :
    ([] : List Nat).length ≤ 11 ∧
    EncryptionManager.decrypt trivAead []
      = .error (VpnError.GenericError "Data too short") ∧
    EncryptionManager.decrypt trivAead (List.replicate 5 0)
      = .error (VpnError.GenericError "Data too short") :=
  ⟨by decide, c4_decrypt_short_generic_error trivAead [] (by decide),
    c4_decrypt_short_generic_error trivAead (List.replicate 5 0) (by decide)⟩

/-- C5: route parsing succeeds if and only if the payload length is a
multiple of 16, and on success produces exactly `length / 16` entries in
payload order, the i-th entry read as network, mask, next hop and big-endian
metric from the i-th consecutive 16-byte chunk. -/
theorem c5_route_payload_parse (payload : List Nat) :
    ((parse_route_updates payload).isOk ↔ payload.length % 16 = 0) ∧
    ∀ rs, parse_route_updates payload = .ok rs →
      rs.length = payload.length / 16 ∧
      ∀ (i : Nat) (d : RouteEntry), i < rs.length →
        rs.getD i d =
          { target_network := ipOfBytes ((payload.drop (16 * i)).take 4)
            network_mask := ipOfBytes ((payload.drop (16 * i + 4)).take 4)
            next_hop := ipOfBytes ((payload.drop (16 * i + 8)).take 4)
            metric := u32FromBeBytes ((payload.drop (16 * i + 12)).take 4) } := by
  constructor
  · unfold parse_route_updates
    split
    · simp_all [Except.isOk, Except.toBool]
    · simp_all [Except.isOk, Except.toBool]
  · intro rs hrs
    unfold parse_route_updates at hrs
    split at hrs
    · exact absurd hrs (by simp)
    · have hmod : payload.length % 16 = 0 := by omega
      have hrs2 : rs = parseRoutesLoop payload := by
        injection hrs with h2
        exact h2.symm
      subst hrs2
      refine ⟨parseRoutesLoop_length payload hmod, ?_⟩
      intro i d hi
      rw [parseRoutesLoop_getD payload i d hi, entryOfChunk_fields]

/-- C5, witness: the 32-byte demo payload parses into its two entries; a
15-byte payload is rejected. -/
theorem c5_route_payload_parse_witness :
    (parse_route_updates routeDemoPayload).isOk = true ∧
    (parse_route_updates (List.replicate 15 0)).isOk = false :=
  ⟨((c5_route_payload_parse routeDemoPayload).1).mpr (by decide),
    by
      have h := (c5_route_payload_parse (List.replicate 15 0)).1
      rw [Bool.eq_false_iff]
      intro hc
      have h15 := h.mp hc
      simp at h15⟩

/-- C6: for every well-typed packet (a `Control` packet carries a control
type), packing and unpacking through an AEAD that round-trips with a
12-byte nonce recovers the packet, except that a non-`Control` packet's
`control_type` comes back as `none`. -/
theorem c6_pack_unpack_roundtrip (p : VpnPacket)
    (aeadEnc : List Nat → List Nat → List Nat)
    (aeadDec : List Nat → List Nat → Except String (List Nat))
    (nonce : List Nat)
    (hw : p.wellTyped) (hn : nonce.length = 12)
    (hrt : ∀ n d, aeadDec n (aeadEnc n d) = .ok d) :
    ProtocolHandler.unpack aeadDec (ProtocolHandler.pack aeadEnc nonce p) =
      .ok { p with control_type :=
              if p.packet_type = PacketType.Control then p.control_type else none } := by
  unfold ProtocolHandler.unpack ProtocolHandler.pack EncryptionManager.encrypt
    EncryptionManager.decrypt
  have hlen : ¬ (nonce ++ aeadEnc nonce (packPlain p)).length < 12 := by
    simp [hn]
  rw [if_neg hlen, List.take_left' hn, List.drop_left' hn, hrt]
  exact unpackPlain_packPlain p hw

/-- C6, witness: a `Data` packet carrying a spurious `control_type` round
trips with the control type dropped, through the identity AEAD. -/
theorem c6_pack_unpack_roundtrip_witness :
    pDemo.wellTyped ∧
    ProtocolHandler.unpack (fun _ c => .ok c)
        (ProtocolHandler.pack (fun _ d => d) (List.replicate 12 0) pDemo) =
      .ok { pDemo with control_type :=
              if pDemo.packet_type = PacketType.Control then pDemo.control_type else none } :=
  ⟨by decide,
    c6_pack_unpack_roundtrip pDemo (fun _ d => d) (fun _ c => .ok c)
      (List.replicate 12 0) (by decide) (by decide) (fun _ _ => rfl)⟩

/-- C7: the claim is right and the code is wrong.  `disconnect` on a
connected client does send `Control/Disconnect`, clear `connected`, take the
heartbeat handle and become a no-op on a second call — but it never stores
`true` to the shared `shutdown_flag` (no statement in vpn_client.rs does),
so the heartbeat loop guard still allows the loop to continue. -/
theorem c7_disconnect_never_sets_shutdown_flag :
    (clientDisconnect connectedClient).1.connected = false ∧
    (clientDisconnect connectedClient).2
      = [VpnPacket.new_control ControlType.Disconnect] ∧
    (clientDisconnect connectedClient).1.shutdown_flag = false ∧
    heartbeat_loop_continues (clientDisconnect connectedClient).1 = true ∧
    clientDisconnect (clientDisconnect connectedClient).1
      = ((clientDisconnect connectedClient).1, []) := by
  decide

/-- C8: the reply to a received `Data` packet is a `Data` packet whose
source and destination addresses are the request's swapped and whose payload
is the request's payload unchanged. -/
theorem c8_data_echo_swaps
    (aeadDec : List Nat → List Nat → Except String (List Nat))
    (st : ServerState) (cid : String) (frame : List Nat) (now : Nat) (p : VpnPacket)
    (hs : (st.sessions cid).isSome)
    (hlen : frame.length ≤ 65535)
    (hu : ProtocolHandler.unpack aeadDec frame = .ok p)
    (hd : p.packet_type = PacketType.Data) :
    (handle_client_packet aeadDec st cid (.data frame) now).sent
        = [{ source_ip := p.dest_ip, dest_ip := p.source_ip,
             packet_type := PacketType.Data, control_type := p.control_type,
             payload := p.payload }] ∧
    (handle_client_packet aeadDec st cid (.data frame) now).out
        = .returned (.ok ()) := by
  obtain ⟨s, hs⟩ := Option.isSome_iff_exists.mp hs
  have hlen2 : ¬ frame.length > 65535 := by omega
  simp [handle_client_packet, service_read_packet, hs, hlen2, hu, hd,
        handle_data_packet, process_data_packet, write_packet, insertKey]

/-- C8, witness: the demo `Data` packet from 1.2.3.4 to 5.6.7.8 with payload
`[99]` is echoed with the addresses swapped. -/
theorem c8_data_echo_swaps_witness :
    (stC.sessions "c").isSome = true ∧
    ((handle_client_packet decData stC "c" (.data (List.replicate 12 0)) 0).sent
        = [{ source_ip := ⟨5, 6, 7, 8⟩, dest_ip := ⟨1, 2, 3, 4⟩,
             packet_type := PacketType.Data, control_type := none,
             payload := [99] }] ∧
    (handle_client_packet decData stC "c" (.data (List.replicate 12 0)) 0).out
        = .returned (.ok ())) :=
  ⟨by decide,
    c8_data_echo_swaps decData stC "c" (List.replicate 12 0) 0
      ⟨⟨1, 2, 3, 4⟩, ⟨5, 6, 7, 8⟩, PacketType.Data, none, [99]⟩
      (by decide) (by decide) (by decide) rfl⟩

/-- C9: processing a `Control/Disconnect` packet sends a `Control/Disconnect`
acknowledgment with empty payload to the session, and immediately afterwards
the session, its route-table entry and its config-table entry are all absent
from their tables. -/
theorem c9_disconnect_ack_and_purge
    (aeadDec : List Nat → List Nat → Except String (List Nat))
    (st : ServerState) (cid : String) (frame : List Nat) (now : Nat) (p : VpnPacket)
    (hs : (st.sessions cid).isSome)
    (hlen : frame.length ≤ 65535)
    (hu : ProtocolHandler.unpack aeadDec frame = .ok p)
    (hc : p.packet_type = PacketType.Control)
    (hct : p.control_type = some ControlType.Disconnect) :
    (handle_client_packet aeadDec st cid (.data frame) now).sent
        = [{ source_ip := ⟨0, 0, 0, 0⟩, dest_ip := ⟨0, 0, 0, 0⟩,
             packet_type := PacketType.Control,
             control_type := some ControlType.Disconnect, payload := [] }] ∧
    (handle_client_packet aeadDec st cid (.data frame) now).st.sessions cid = none ∧
    (handle_client_packet aeadDec st cid (.data frame) now).st.routes cid = none ∧
    (handle_client_packet aeadDec st cid (.data frame) now).st.configs cid = none ∧
    (handle_client_packet aeadDec st cid (.data frame) now).out
        = .returned (.ok ()) := by
  obtain ⟨s, hs⟩ := Option.isSome_iff_exists.mp hs
  have hlen2 : ¬ frame.length > 65535 := by omega
  simp [handle_client_packet, service_read_packet, hs, hlen2, hu, hc, hct,
        handle_disconnect, write_packet, insertKey, removeKey,
        VpnPacket.new_control]

/-- C9, witness: the disconnect scenario for the one accepted client. -/
theorem c9_disconnect_ack_and_purge_witness :
    (stC.sessions "c").isSome = true ∧
    ((handle_client_packet decDisc stC "c" (.data (List.replicate 12 0)) 0).sent
        = [{ source_ip := ⟨0, 0, 0, 0⟩, dest_ip := ⟨0, 0, 0, 0⟩,
             packet_type := PacketType.Control,
             control_type := some ControlType.Disconnect, payload := [] }] ∧
    (handle_client_packet decDisc stC "c" (.data (List.replicate 12 0)) 0).st.sessions "c" = none ∧
    (handle_client_packet decDisc stC "c" (.data (List.replicate 12 0)) 0).st.routes "c" = none ∧
    (handle_client_packet decDisc stC "c" (.data (List.replicate 12 0)) 0).st.configs "c" = none ∧
    (handle_client_packet decDisc stC "c" (.data (List.replicate 12 0)) 0).out
        = .returned (.ok ())) :=
  ⟨by decide,
    c9_disconnect_ack_and_purge decDisc stC "c" (List.replicate 12 0) 0
      ⟨⟨0, 0, 0, 0⟩, ⟨0, 0, 0, 0⟩, PacketType.Control, some ControlType.Disconnect, []⟩
      (by decide) (by decide) (by decide) rfl rfl⟩

/-- C10: a `Control` packet with control type `ConfigResponse` makes the
dispatch return `Protocol("Unknown control type")`, and since `Protocol`
errors are fatal the main loop removes that session from the session
table. -/
theorem c10_config_response_fatal
    (aeadDec : List Nat → List Nat → Except String (List Nat))
    (st : ServerState) (cid : String) (frame : List Nat) (now : Nat) (p : VpnPacket)
    (hs : (st.sessions cid).isSome)
    (hlen : frame.length ≤ 65535)
    (hu : ProtocolHandler.unpack aeadDec frame = .ok p)
    (hc : p.packet_type = PacketType.Control)
    (hct : p.control_type = some ControlType.ConfigResponse) :
    (main_loop_step aeadDec st cid (.data frame) now).out
        = .returned (.error (VpnError.Protocol "Unknown control type")) ∧
    (main_loop_step aeadDec st cid (.data frame) now).st.sessions cid = none := by
  obtain ⟨s, hs⟩ := Option.isSome_iff_exists.mp hs
  have hlen2 : ¬ frame.length > 65535 := by omega
  simp [main_loop_step, handle_client_packet, service_read_packet, hs, hlen2,
        hu, hc, hct, is_fatal_error, removeKey]

/-- C10, witness: the `ConfigResponse` scenario for the one accepted
client. -/
theorem c10_config_response_fatal_witness :
    (stC.sessions "c").isSome = true ∧
    ((main_loop_step decConfigResp stC "c" (.data (List.replicate 12 0)) 0).out
        = .returned (.error (VpnError.Protocol "Unknown control type")) ∧
    (main_loop_step decConfigResp stC "c" (.data (List.replicate 12 0)) 0).st.sessions "c" = none) :=
  ⟨by decide,
    c10_config_response_fatal decConfigResp stC "c" (List.replicate 12 0) 0
      ⟨⟨0, 0, 0, 0⟩, ⟨0, 0, 0, 0⟩, PacketType.Control, some ControlType.ConfigResponse, []⟩
      (by decide) (by decide) (by decide) rfl rfl⟩

end RustVpn
